import Mathlib

/-!
Verification development for the NEPEM-UFSC/certificados key-management core.

The definitions below are a shallow embedding of the JavaScript source:

* `netlify/functions/createKey.js` — the `authenticate` middleware (two
  variants are present in the repository: the first checks the header
  scheme, lines 62-155; the second checks only header presence, lines
  402-494), the `generateSecret`/`generateKeyId` helpers and the POST
  handlers of both variants;
* the `manageKey` handler (PUT/DELETE on a key, with target resolution by
  id then by description, field validation and admin self-lockout
  protection).

The Firestore keys collection is modelled as an association list from
document id to record; JWT verification is modelled by the abstract
`Token`/`verifyTok` idealization of HMAC (a signature verifies exactly
when the token was signed with the same secret; jsonwebtoken checks the
signature before the expiry claim).  `crypto.createHash("sha256")` is
embedded as a full executable SHA-256 over UTF-8 bytes, validated below
against the standard test vectors.
-/

/-! ## JavaScript string primitives -/

/-- Whitespace class of the JS regex `\s` and of `String.prototype.trim`. -/
def jsWhitespaceChar (c : Char) : Bool :=
  let n := c.toNat
  n = 32 || n = 9 || n = 10 || n = 13 || n = 11 || n = 12 ||
  n = 160 || n = 5760 || (8192 ≤ n && n ≤ 8202) || n = 8232 || n = 8233 ||
  n = 8239 || n = 8287 || n = 12288 || n = 65279

/-- Drop leading JS whitespace from a character list. -/
def dropLeadingWs : List Char → List Char
  | [] => []
  | c :: cs => if jsWhitespaceChar c then dropLeadingWs cs else c :: cs

/-- JS `String.prototype.trim`: strip whitespace from both ends. -/
def jsTrim (s : String) : String :=
  String.mk (dropLeadingWs ((dropLeadingWs s.data.reverse).reverse))

/-- Replace every maximal run of whitespace by one underscore, as the JS
`replace(/\s+/g, "_")` does.  The boolean tracks whether the previous
character belonged to a whitespace run already rewritten. -/
def collapseWsAux : Bool → List Char → List Char
  | _, [] => []
  | prevWs, c :: cs =>
    if jsWhitespaceChar c then
      (if prevWs then [] else ['_']) ++ collapseWsAux true cs
    else
      c :: collapseWsAux false cs

/-- ASCII lower-casing (the labels handled by the source are ASCII). -/
def charLowerAscii (c : Char) : Char :=
  if 65 ≤ c.toNat ∧ c.toNat ≤ 90 then Char.ofNat (c.toNat + 32) else c

/-! ## SHA-256 over UTF-8 bytes (crypto.createHash("sha256")) -/

/-- UTF-8 encoding of one character, as a list of byte values. -/
def charUtf8 (c : Char) : List Nat :=
  let n := c.toNat
  if n < 128 then [n]
  else if n < 2048 then
    [192 ||| (n >>> 6), 128 ||| (n &&& 63)]
  else if n < 65536 then
    [224 ||| (n >>> 12), 128 ||| ((n >>> 6) &&& 63), 128 ||| (n &&& 63)]
  else
    [240 ||| (n >>> 18), 128 ||| ((n >>> 12) &&& 63),
     128 ||| ((n >>> 6) &&& 63), 128 ||| (n &&& 63)]

/-- UTF-8 bytes of a string. -/
def utf8Bytes (s : String) : List Nat :=
  s.data.flatMap charUtf8

/-- Right rotation of a 32-bit word. -/
def rotr32 (n w : Nat) : Nat :=
  ((w >>> n) ||| (w <<< (32 - n))) % 4294967296

/-- SHA-256 round constants. -/
def sha256K : List Nat :=
  [1116352408, 1899447441, 3049323471, 3921009573, 961987163, 1508970993,
   2453635748, 2870763221, 3624381080, 310598401, 607225278, 1426881987,
   1925078388, 2162078206, 2614888103, 3248222580, 3835390401, 4022224774,
   264347078, 604807628, 770255983, 1249150122, 1555081692, 1996064986,
   2554220882, 2821834349, 2952996808, 3210313671, 3336571891, 3584528711,
   113926993, 338241895, 666307205, 773529912, 1294757372, 1396182291,
   1695183700, 1986661051, 2177026350, 2456956037, 2730485921, 2820302411,
   3259730800, 3345764771, 3516065817, 3600352804, 4094571909, 275423344,
   430227734, 506948616, 659060556, 883997877, 958139571, 1322822218,
   1537002063, 1747873779, 1955562222, 2024104815, 2227730452, 2361852424,
   2428436474, 2756734187, 3204031479, 3329325298]

/-- Working state / hash value: eight 32-bit words. -/
structure Hash8 where
  h0 : Nat
  h1 : Nat
  h2 : Nat
  h3 : Nat
  h4 : Nat
  h5 : Nat
  h6 : Nat
  h7 : Nat
deriving DecidableEq

/-- SHA-256 initial hash value. -/
def sha256H0 : Hash8 :=
  ⟨1779033703, 3144134277, 1013904242, 2773480762,
   1359893119, 2600822924, 528734635, 1541459225⟩

/-- Append the standard SHA-256 padding to a byte message. -/
def sha256pad (msg : List Nat) : List Nat :=
  let bitLen := 8 * msg.length
  let zeros := (119 - msg.length % 64) % 64
  msg ++ [128] ++ List.replicate zeros 0 ++
    [(bitLen >>> 56) &&& 255, (bitLen >>> 48) &&& 255, (bitLen >>> 40) &&& 255,
     (bitLen >>> 32) &&& 255, (bitLen >>> 24) &&& 255, (bitLen >>> 16) &&& 255,
     (bitLen >>> 8) &&& 255, bitLen &&& 255]

/-- Big-endian grouping of bytes into 32-bit words. -/
def bytesToWords : List Nat → List Nat
  | b0 :: b1 :: b2 :: b3 :: rest =>
    ((((b0 <<< 8) ||| b1) <<< 8 ||| b2) <<< 8 ||| b3) :: bytesToWords rest
  | _ => []

/-- Extend a 16-word message schedule by the given number of words. -/
def sha256extend : Nat → List Nat → List Nat
  | 0, w => w
  | n + 1, w =>
    let i := w.length
    let w15 := w.getD (i - 15) 0
    let w2 := w.getD (i - 2) 0
    let w16 := w.getD (i - 16) 0
    let w7 := w.getD (i - 7) 0
    let s0 := (rotr32 7 w15) ^^^ (rotr32 18 w15) ^^^ (w15 >>> 3)
    let s1 := (rotr32 17 w2) ^^^ (rotr32 19 w2) ^^^ (w2 >>> 10)
    sha256extend n (w ++ [(w16 + s0 + w7 + s1) % 4294967296])

/-- One compression round, consuming a (round constant, schedule word) pair. -/
def sha256round (st : Hash8) (kw : Nat × Nat) : Hash8 :=
  let s1 := (rotr32 6 st.h4) ^^^ (rotr32 11 st.h4) ^^^ (rotr32 25 st.h4)
  let ch := (st.h4 &&& st.h5) ^^^ ((st.h4 ^^^ 4294967295) &&& st.h6)
  let t1 := (st.h7 + s1 + ch + kw.1 + kw.2) % 4294967296
  let s0 := (rotr32 2 st.h0) ^^^ (rotr32 13 st.h0) ^^^ (rotr32 22 st.h0)
  let maj := (st.h0 &&& st.h1) ^^^ (st.h0 &&& st.h2) ^^^ (st.h1 &&& st.h2)
  let t2 := (s0 + maj) % 4294967296
  ⟨(t1 + t2) % 4294967296, st.h0, st.h1, st.h2,
   (st.h3 + t1) % 4294967296, st.h4, st.h5, st.h6⟩

/-- Process one 64-byte block. -/
def sha256block (st : Hash8) (block : List Nat) : Hash8 :=
  let w := sha256extend 48 (bytesToWords block)
  let r := (sha256K.zip w).foldl sha256round st
  ⟨(st.h0 + r.h0) % 4294967296, (st.h1 + r.h1) % 4294967296,
   (st.h2 + r.h2) % 4294967296, (st.h3 + r.h3) % 4294967296,
   (st.h4 + r.h4) % 4294967296, (st.h5 + r.h5) % 4294967296,
   (st.h6 + r.h6) % 4294967296, (st.h7 + r.h7) % 4294967296⟩

/-- Fold over the 64-byte blocks of a padded message.  The fuel argument
(the byte count suffices) keeps the recursion structural. -/
def sha256loop : Nat → List Nat → Hash8 → Hash8
  | 0, _, st => st
  | _ + 1, [], st => st
  | n + 1, bytes, st =>
    sha256loop n (bytes.drop 64) (sha256block st (bytes.take 64))

/-- SHA-256 of a byte message. -/
def sha256bytes (msg : List Nat) : Hash8 :=
  let padded := sha256pad msg
  sha256loop padded.length padded sha256H0

/-- Lower-case hexadecimal digits. -/
def hexDigits : List Char :=
  "0123456789abcdef".data

/-- Hexadecimal digit of a nibble value. -/
def hexDigitChar (n : Nat) : Char :=
  hexDigits.getD (n % 16) '0'

/-- Eight hex characters of one 32-bit word, most significant first. -/
def wordHex (w : Nat) : List Char :=
  [hexDigitChar (w >>> 28), hexDigitChar (w >>> 24), hexDigitChar (w >>> 20),
   hexDigitChar (w >>> 16), hexDigitChar (w >>> 12), hexDigitChar (w >>> 8),
   hexDigitChar (w >>> 4), hexDigitChar w]

/-- Hex digest of the SHA-256 of a string, i.e. the JS expression
`crypto.createHash("sha256").update(s).digest("hex")`. -/
def sha256hex (s : String) : String :=
  let h := sha256bytes (utf8Bytes s)
  String.mk (wordHex h.h0 ++ wordHex h.h1 ++ wordHex h.h2 ++ wordHex h.h3 ++
             wordHex h.h4 ++ wordHex h.h5 ++ wordHex h.h6 ++ wordHex h.h7)

set_option maxHeartbeats 1000000 in
/-- Validation of the SHA-256 embedding: FIPS 180 test vector for the
empty message. -/
theorem sha256hex_empty :
    sha256hex "" = "e3b0c44298fc1c149afbf4c8996fb92427ae41e4649b934ca495991b7852b855" := by
  decide

set_option maxHeartbeats 1000000 in
/-- Validation of the SHA-256 embedding: FIPS 180 test vector for "abc". -/
theorem sha256hex_abc :
    sha256hex "abc" = "ba7816bf8f01cfea414140de5dae2223b00361a396177a9cb410ff61f20015ad" := by
  decide

/-! ## Secret generator (createKey.js lines 376-393, second variant) -/

/-- Source: `generateKeyId(username)` in createKey.js (lines 389-393).
Normalizes the label by rewriting whitespace runs to underscores and
lower-casing, and appends the first 16 hex characters of the SHA-256 of
the raw label concatenated with the salt "nepemcert". -/
def generateKeyId (username : String) : String :=
  let salt := "nepemcert"
  let hash := String.mk ((sha256hex (username ++ salt)).data.take 16)
  String.mk ((collapseWsAux false username.data).map charLowerAscii) ++ "_" ++ hash

/-! ## Data model: responses, tokens, key records, the keys collection -/

/-- HTTP response shape produced by the handlers: status code and the
message field of the JSON body. -/
structure Response where
  statusCode : Nat
  message : String
deriving DecidableEq

/-- Outcome of the authenticate middleware: either an authenticated
identity (role and keyId, as in the returned JS object) or an error
response that the caller relays unchanged. -/
inductive AuthOutcome where
  | success (role : String) (keyId : String)
  | failure (resp : Response)
deriving DecidableEq

/-- Abstract JWT.  `payloadKeyId` is what `jwt.decode` exposes (none when
the token cannot be parsed or its payload lacks a keyId); `signedWith` is
the secret the token was actually signed with (none for a structurally
broken signature); `isExpired` records whether the exp claim has passed. -/
structure Token where
  payloadKeyId : Option String
  signedWith : Option String
  isExpired : Bool
deriving DecidableEq

/-- Result of `jwt.verify(token, secret)`: success, a TokenExpiredError,
or a JsonWebTokenError (bad signature / malformed token). -/
inductive VerifyResult where
  | ok
  | expired
  | invalid
deriving DecidableEq

/-- Idealized `jwt.verify`: the signature matches exactly when the token
was signed with the given secret; jsonwebtoken validates the signature
before the exp claim, so an expired token with a wrong signature raises
JsonWebTokenError, not TokenExpiredError. -/
def verifyTok (t : Token) (secret : String) : VerifyResult :=
  match t.signedWith with
  | none => .invalid
  | some s =>
    if s = secret then (if t.isExpired then .expired else .ok) else .invalid

/-- The two observations the source makes of a raw Authorization header
value: `authHeader.startsWith("Bearer ")` and the second space-separated
chunk `authHeader.split(" ")[1]` handed to the jwt library (none when the
header has no second chunk). -/
structure AuthHeaderData where
  startsWithBearer : Bool
  token : Option Token
deriving DecidableEq

/-- A key document of the Firestore keys collection.  Audit fields hold
the stamped timestamp or actor id. -/
structure KeyRecord where
  secret : Option String
  role : String
  isActive : Bool
  description : Option String := none
  createdAt : Option String := none
  createdBy : Option String := none
  updatedAt : Option String := none
  updatedBy : Option String := none
  deactivatedAt : Option String := none
  deactivatedBy : Option String := none
deriving DecidableEq

/-- The keys collection: an association list from document id to record. -/
def KeyStore := List (String × KeyRecord)

/-- Firestore `db.collection("keys").doc(id).get()`. -/
def storeLookup (store : KeyStore) (id : String) : Option KeyRecord :=
  match store with
  | [] => none
  | p :: rest => if p.1 = id then some p.2 else storeLookup rest id

/-- Firestore `db.collection("keys").where("description", "==", d).get()`:
the documents whose description field equals the given string. -/
def queryByDescription (store : KeyStore) (d : String) : List (String × KeyRecord) :=
  match store with
  | [] => []
  | p :: rest =>
    if p.2.description = some d then p :: queryByDescription rest d
    else queryByDescription rest d

/-- JS truthiness of an optional string: `!x` holds for undefined and for
the empty string. -/
def optStrFalsy : Option String → Bool
  | none => true
  | some s => s.isEmpty

/-- Bootstrap pseudo-key identifier (createKey.js line 58 / 373). -/
def BOOTSTRAP_KEY_ID : String := "nepemcert-bootstrap"

/-! ## The authenticate middleware -/

/-- Shared tail of every authenticate variant, from `jwt.decode` onwards
(createKey.js lines 74-154 and 413-493, manageKey lines 241-305; the
manageKey variant has no bootstrap branch, which is the `allowBootstrap =
false` instance). -/
def authCore (store : KeyStore) (bootSecret : String) (tok : Option Token)
    (requiredRoles : List String) (allowBootstrap : Bool) : AuthOutcome :=
  match tok with
  | none => .failure ⟨400, "Bad Request: JWT payload missing keyId"⟩
  | some t =>
    match t.payloadKeyId with
    | none => .failure ⟨400, "Bad Request: JWT payload missing keyId"⟩
    | some keyId =>
      if allowBootstrap ∧ keyId = BOOTSTRAP_KEY_ID then
        match verifyTok t bootSecret with
        | .ok => .success "bootstrap" BOOTSTRAP_KEY_ID
        | _ => .failure ⟨401, "Authentication failed: Invalid bootstrap token"⟩
      else
        match storeLookup store keyId with
        | none =>
          .failure ⟨403, "Forbidden: API key not found in \"keys\" collection"⟩
        | some rec =>
          if optStrFalsy rec.secret then
            .failure ⟨500, "Internal Server Error: Key document missing secret"⟩
          else
            match verifyTok t (rec.secret.getD "") with
            | .expired => .failure ⟨401, "Authentication failed: JWT expired"⟩
            | .invalid =>
              .failure ⟨401, "Authentication failed: Invalid JWT signature or malformed token"⟩
            | .ok =>
              if rec.isActive = false then
                .failure ⟨403, "Forbidden: API key is not active"⟩
              else if (requiredRoles.contains rec.role) = false then
                .failure ⟨403, "Forbidden: Role \"" ++ rec.role ++
                  "\" not authorized for this operation"⟩
              else
                .success rec.role keyId

/-- The first authenticate variant (createKey.js lines 62-155): rejects a
missing header and a header that does not start with the Bearer scheme. -/
def authenticate (store : KeyStore) (bootSecret : String)
    (auth : Option AuthHeaderData) (requiredRoles : List String)
    (allowBootstrap : Bool) : AuthOutcome :=
  match auth with
  | none =>
    .failure ⟨401, "Authentication required: Missing or invalid Authorization header"⟩
  | some h =>
    if h.startsWithBearer then
      authCore store bootSecret h.token requiredRoles allowBootstrap
    else
      .failure ⟨401, "Authentication required: Missing or invalid Authorization header"⟩

/-- The second authenticate variant (createKey.js lines 402-494): rejects
only a missing header, without checking the scheme. -/
def authenticateV2 (store : KeyStore) (bootSecret : String)
    (auth : Option AuthHeaderData) (requiredRoles : List String)
    (allowBootstrap : Bool) : AuthOutcome :=
  match auth with
  | none =>
    .failure ⟨401, "Authentication required: Missing or invalid Authorization header"⟩
  | some h => authCore store bootSecret h.token requiredRoles allowBootstrap

/-- The manageKey authenticate (part_005 lines 230-306): scheme-checking
header handling and no bootstrap branch, i.e. the `allowBootstrap = false`
instance of the shared core (the bootstrap secret is then unused). -/
def manageAuth (store : KeyStore) (auth : Option AuthHeaderData)
    (requiredRoles : List String) : AuthOutcome :=
  match auth with
  | none =>
    .failure ⟨401, "Authentication required: Missing or invalid Authorization header"⟩
  | some h =>
    if h.startsWithBearer then
      authCore store "" h.token requiredRoles false
    else
      .failure ⟨401, "Authentication required: Missing or invalid Authorization header"⟩

/-! ## The createKey handlers -/

/-- Parsed JSON body of a createKey request. `none` fields are absent
keys; JS truthiness of the string fields is `optStrFalsy`. -/
structure CreateBody where
  role : Option String
  isActive : Option Bool
  description : Option String
  secret : Option String
deriving DecidableEq

/-- Allowed role values (createKey.js line 223 / 531, manageKey line 369). -/
def allowedRoles : List String := ["admin", "issuer", "reader"]

/-- The POST branch of the first createKey handler (createKey.js lines
197-314).  `genSecret` stands for the `crypto.randomBytes(32)` secret,
`docId` for the id Firestore assigns in `add`, and `now` for the server
timestamp.  Returns the response together with the list of document
writes performed (id and full written record). -/
def createKeyV1Post (store : KeyStore) (bootSecret : String)
    (genSecret docId now : String) (auth : Option AuthHeaderData)
    (body : Option CreateBody) : Response × List (String × KeyRecord) :=
  match body with
  | none => (⟨400, "Invalid JSON body"⟩, [])
  | some b =>
    if optStrFalsy b.role || b.isActive.isNone || optStrFalsy b.description then
      (⟨400, "Missing required key data: role, isActive and description are mandatory"⟩, [])
    else
      let role := b.role.getD ""
      if (allowedRoles.contains role) = false then
        (⟨400, "Invalid role provided. Allowed roles are: admin, issuer, reader"⟩, [])
      else
        let d := b.description.getD ""
        if (jsTrim d).length < 3 then
          (⟨400, "Description must be a string with at least 3 characters"⟩, [])
        else if (queryByDescription store (jsTrim d)).isEmpty = false then
          (⟨409, "A key with this description already exists"⟩, [])
        else
          let doCreate : Response × List (String × KeyRecord) :=
            let secret := if optStrFalsy b.secret then genSecret else b.secret.getD ""
            let newRec : KeyRecord :=
              { secret := some secret, role := role, isActive := b.isActive.getD true,
                description := some (jsTrim d), createdAt := some now }
            (⟨201, "Key created successfully"⟩, [(docId, newRec)])
          if role = "reader" then
            match auth with
            | some h =>
              if h.startsWithBearer then
                match authenticate store bootSecret auth ["admin", "issuer"] true with
                | .success _ _ => doCreate
                | .failure r => (r, [])
              else
                (⟨401, "Authentication required: Reader keys can only be created with bootstrap token. Use Authorization: Bearer <bootstrap_token>"⟩, [])
            | none =>
              (⟨401, "Authentication required: Reader keys can only be created with bootstrap token. Use Authorization: Bearer <bootstrap_token>"⟩, [])
          else
            match authenticate store bootSecret auth ["admin"] false with
            | .success _ _ => doCreate
            | .failure r => (r, [])

/-- The POST branch of the second createKey handler (createKey.js lines
496-590): authenticates with requiredRoles = [admin] and allowBootstrap =
true up front, generates the secret and the deterministic keyId, rejects
an existing keyId with 409, and stores the record under the generated
keyId. -/
def createKeyV2Post (store : KeyStore) (bootSecret : String)
    (genSecret now : String) (auth : Option AuthHeaderData)
    (body : Option CreateBody) : Response × List (String × KeyRecord) :=
  match authenticateV2 store bootSecret auth ["admin"] true with
  | .failure r => (r, [])
  | .success _ actingKeyId =>
    match body with
    | none => (⟨400, "Invalid JSON body"⟩, [])
    | some b =>
      if optStrFalsy b.role || b.isActive.isNone then
        (⟨400, "Missing required key data: role, isActive and description are mandatory"⟩, [])
      else
        let role := b.role.getD ""
        if (allowedRoles.contains role) = false then
          (⟨400, "Invalid role provided"⟩, [])
        else
          let baseForId :=
            if optStrFalsy b.description then role else jsTrim (b.description.getD "")
          let keyId := generateKeyId baseForId
          if (storeLookup store keyId).isSome then
            (⟨409, "A key with this identifier already exists. Please use a different description."⟩, [])
          else
            let newRec : KeyRecord :=
              { secret := some genSecret, role := role, isActive := b.isActive.getD true,
                description := b.description.map jsTrim,
                createdAt := some now, createdBy := some actingKeyId }
            (⟨201, "Key created successfully"⟩, [(keyId, newRec)])

/-! ## The manageKey handler -/

/-- Parsed JSON body of a manageKey PUT request.  The source also rejects
a non-boolean isActive and a non-string description with 400; those JSON
shapes are excluded by this typed embedding. -/
structure UpdateBody where
  role : Option String
  isActive : Option Bool
  description : Option String
deriving DecidableEq

/-- Target resolution of manageKey (part_005 lines 326-351): direct id
lookup first; only when that misses, lookup by description, rejecting
zero matches with 404 and several matches with 400. -/
def resolveTarget (store : KeyStore) (tid : String) :
    Except Response (String × KeyRecord) :=
  match storeLookup store tid with
  | some r => .ok (tid, r)
  | none =>
    match queryByDescription store tid with
    | [] => .error ⟨404, "Key not found. Please check the description or ID."⟩
    | [p] => .ok p
    | _ :: _ :: _ =>
      .error ⟨400, "Multiple keys found with this description. Please use the specific key ID."⟩

/-- Continuation of the manageKey PUT branch after field validation
(part_005 lines 417-454): empty-update guard, the two admin self-lockout
rules, then the Firestore update of the accepted fields merged into the
current record. -/
def manageKeyPutTail (now actingKeyId targetKeyId : String)
    (cur : KeyRecord) (u : UpdateBody) : Response × List (String × KeyRecord) :=
  if u.role.isNone ∧ u.isActive.isNone ∧ u.description.isNone then
    (⟨400, "No valid fields to update. Allowed fields: role, isActive, description"⟩, [])
  else if u.isActive = some false ∧ cur.role = "admin" ∧ actingKeyId = targetKeyId then
    (⟨400, "Cannot deactivate your own admin key"⟩, [])
  else if (u.role.any fun r => r != "admin") ∧ cur.role = "admin" ∧
      actingKeyId = targetKeyId then
    (⟨400, "Cannot change your own admin role"⟩, [])
  else
    let merged : KeyRecord :=
      { cur with
        role := u.role.getD cur.role,
        isActive := u.isActive.getD cur.isActive,
        description := (match u.description with
                        | some d => some (jsTrim d)
                        | none => cur.description),
        updatedAt := some now,
        updatedBy := some actingKeyId }
    (⟨200, "Key updated successfully"⟩, [(targetKeyId, merged)])

/-- The PUT branch of manageKey (part_005 lines 355-461), after target
resolution: validate fields in source order, then continue with the
self-lockout checks and the update. -/
def manageKeyPut (store : KeyStore) (now actingKeyId targetKeyId : String)
    (cur : KeyRecord) (body : Option UpdateBody) :
    Response × List (String × KeyRecord) :=
  match body with
  | none => (⟨400, "Invalid JSON body"⟩, [])
  | some u =>
    if u.role.any fun r => !(allowedRoles.contains r) then
      (⟨400, "Invalid role provided. Allowed roles are: admin, issuer, reader"⟩, [])
    else
      match u.description with
      | some d =>
        if (jsTrim d).length < 3 then
          (⟨400, "Description must be a string with at least 3 characters"⟩, [])
        else if some (jsTrim d) ≠ cur.description ∧
            (queryByDescription store (jsTrim d)).isEmpty = false then
          (⟨409, "A key with this description already exists"⟩, [])
        else
          manageKeyPutTail now actingKeyId targetKeyId cur u
      | none => manageKeyPutTail now actingKeyId targetKeyId cur u

/-- The manageKey handler (part_005 lines 308-503).  `now` stands for the
server timestamp; the response and the list of document writes are
returned. -/
def manageKeyHandler (store : KeyStore) (now : String) (httpMethod : String)
    (targetIdentifier : String) (auth : Option AuthHeaderData)
    (body : Option UpdateBody) : Response × List (String × KeyRecord) :=
  if targetIdentifier = "" ∨ targetIdentifier = "manageKey" then
    (⟨400, "Missing key identifier in path"⟩, [])
  else
    match manageAuth store auth ["admin"] with
    | .failure r => (r, [])
    | .success _ actingKeyId =>
      match resolveTarget store targetIdentifier with
      | .error r => (r, [])
      | .ok (targetKeyId, cur) =>
        if httpMethod = "PUT" then
          manageKeyPut store now actingKeyId targetKeyId cur body
        else if httpMethod = "DELETE" then
          if cur.role = "admin" ∧ actingKeyId = targetKeyId then
            (⟨400, "Cannot deactivate your own admin key"⟩, [])
          else
            let merged : KeyRecord :=
              { cur with
                isActive := false,
                deactivatedAt := some now, deactivatedBy := some actingKeyId }
            (⟨200, "Key deactivated successfully"⟩, [(targetKeyId, merged)])
        else
          (⟨405, "Method Not Allowed. Supported methods: PUT, DELETE"⟩, [])

/-! ## Support lemmas about the hex digest -/

/-- Every value of `hexDigitChar` is a lower-case hex digit. -/
theorem hexDigitChar_mem (n : Nat) : hexDigitChar n ∈ hexDigits := by
  have h : n % 16 < 16 := Nat.mod_lt _ (by norm_num)
  have key : ∀ m, m < 16 → hexDigits.getD m '0' ∈ hexDigits := by decide
  exact key (n % 16) h

/-- Characters of `wordHex` are hex digits. -/
theorem wordHex_subset (w : Nat) : wordHex w ⊆ hexDigits := by
  intro c hc
  simp only [wordHex, List.mem_cons, List.not_mem_nil, or_false] at hc
  rcases hc with rfl | rfl | rfl | rfl | rfl | rfl | rfl | rfl <;>
    exact hexDigitChar_mem _

/-- The hex digest of SHA-256 has 64 characters. -/
theorem sha256hex_data_length (s : String) : (sha256hex s).data.length = 64 := by
  simp [sha256hex, wordHex]

/-- Characters of the hex digest are hex digits. -/
theorem sha256hex_data_subset (s : String) : (sha256hex s).data ⊆ hexDigits := by
  intro c hc
  simp only [sha256hex, String.data, List.mem_append] at hc
  rcases hc with ((((((h | h) | h) | h) | h) | h) | h) | h <;>
    exact wordHex_subset _ h

/-! ## Claim theorems -/

/-- C7: for every label, generateKeyId returns the normalized label (runs
of whitespace replaced by single underscores, then lowercased) followed by
an underscore and a fixed-length digest of exactly 16 hex characters,
taken from the salted SHA-256 of the raw, unnormalized label; the function
is deterministic, so two calls with the same label produce the same id. -/
theorem c7_generateKeyId_shape (label : String) :
    generateKeyId label =
      String.mk ((collapseWsAux false label.data).map charLowerAscii) ++ "_" ++
        String.mk ((sha256hex (label ++ "nepemcert")).data.take 16) ∧
    (String.mk ((sha256hex (label ++ "nepemcert")).data.take 16)).length = 16 ∧
    (sha256hex (label ++ "nepemcert")).data.take 16 ⊆ hexDigits ∧
    generateKeyId label = generateKeyId label := by
  refine ⟨rfl, ?_, ?_, rfl⟩
  · show ((sha256hex (label ++ "nepemcert")).data.take 16).length = 16
    rw [List.length_take, sha256hex_data_length]
    rfl
  · intro c hc
    exact sha256hex_data_subset _ (List.take_subset _ _ hc)

set_option maxHeartbeats 1000000 in
set_option maxRecDepth 10000 in
/-- C7 witness: the theorem applied to a concrete label, together with the
evaluated identifier that label produces. -/
theorem c7_generateKeyId_shape_witness :
    generateKeyId "Bootstrap Reader Key" = "bootstrap_reader_key_7bc9f6fdf638fa34" ∧
    (generateKeyId "Bootstrap Reader Key" =
      String.mk ((collapseWsAux false ("Bootstrap Reader Key").data).map charLowerAscii) ++ "_" ++
        String.mk ((sha256hex ("Bootstrap Reader Key" ++ "nepemcert")).data.take 16)) :=
  ⟨by decide, (c7_generateKeyId_shape "Bootstrap Reader Key").1⟩

set_option maxHeartbeats 1000000 in
set_option maxRecDepth 10000 in
/-- C1: evaluation of the second createKey handler (createKey.js lines
496-590) at a bootstrap-authenticated request for an admin key.  The
bootstrap branch of its authenticate succeeds before any role restriction
is applied, so the handler creates the admin key and returns 201 — while
the handler's own unit tests and the implementation guide demand 403
("Bootstrap token can only create reader keys"), and while the first
handler variant (lines 157-314) indeed rejects the same request with 403.
The claim that bootstrap-created issuer/admin keys always fail with 403 is
therefore correct as specified; this code path is the bug. -/
theorem c1_bootstrap_admin_createKeyV2_201 :
    (createKeyV2Post [] "bs" "generated-secret" "t0"
        (some ⟨true, some ⟨some "nepemcert-bootstrap", some "bs", false⟩⟩)
        (some ⟨some "admin", some true, some "Bootstrap Admin Key", none⟩)).1 =
      ⟨201, "Key created successfully"⟩ ∧
    (createKeyV1Post [] "bs" "generated-secret" "doc0" "t0"
        (some ⟨true, some ⟨some "nepemcert-bootstrap", some "bs", false⟩⟩)
        (some ⟨some "admin", some true, some "Bootstrap Admin Key", none⟩)).1.statusCode
      = 403 := by
  constructor
  · decide
  · decide

/-- C3: whenever the bearer token decodes to a keyId that resolves to no
stored record (and the bootstrap shortcut does not apply), both the
createKey authenticate (lines 97-105) and the manageKey authenticate
(part_005 lines 251-258) answer 403 — never 404 and never 500. -/
theorem c3_unknown_key_403 (store : KeyStore) (bootSecret : String)
    (roles : List String) (allowBootstrap : Bool) (t : Token) (keyId : String)
    (hk : t.payloadKeyId = some keyId)
    (hb : ¬(allowBootstrap ∧ keyId = BOOTSTRAP_KEY_ID))
    (hL : storeLookup store keyId = none) :
    authenticate store bootSecret (some ⟨true, some t⟩) roles allowBootstrap =
      .failure ⟨403, "Forbidden: API key not found in \"keys\" collection"⟩ ∧
    manageAuth store (some ⟨true, some t⟩) roles =
      .failure ⟨403, "Forbidden: API key not found in \"keys\" collection"⟩ := by
  constructor
  · simp only [authenticate, authCore, hk, if_true, if_neg hb, hL]
  · simp only [manageAuth, authCore, hk, hL]
    simp

/-- C3 witness: a concrete unknown key id against an empty store. -/
theorem c3_unknown_key_403_witness :
    authenticate [] "bs" (some ⟨true, some ⟨some "ghost", some "x", false⟩⟩) ["admin"] true =
      .failure ⟨403, "Forbidden: API key not found in \"keys\" collection"⟩ ∧
    manageAuth [] (some ⟨true, some ⟨some "ghost", some "x", false⟩⟩) ["admin"] =
      .failure ⟨403, "Forbidden: API key not found in \"keys\" collection"⟩ :=
  c3_unknown_key_403 [] "bs" ["admin"] true ⟨some "ghost", some "x", false⟩ "ghost"
    rfl (by decide) rfl

set_option linter.unusedVariables false in
/-- C4: cryptographic verification happens before the isActive and role
checks in authenticate (createKey.js lines 117-149): a stored record with
isActive = false presented with an expired token yields 401 with the
"expired" message, not 403 "not active"; a bad-signature token against the
same record yields 401 with the "invalid" message; and those two 401
messages are distinguishable. -/
theorem c4_verify_precedes_state_checks (store : KeyStore) (bootSecret : String)
    (roles : List String) (allowBootstrap : Bool) (keyId s : String) (r : KeyRecord)
    (hb : ¬(allowBootstrap ∧ keyId = BOOTSTRAP_KEY_ID))
    (hL : storeLookup store keyId = some r)
    (hs : r.secret = some s) (hs2 : s.isEmpty = false)
    (hInactive : r.isActive = false) :
    authenticate store bootSecret (some ⟨true, some ⟨some keyId, some s, true⟩⟩)
        roles allowBootstrap =
      .failure ⟨401, "Authentication failed: JWT expired"⟩ ∧
    (∀ sw : Option String, sw ≠ some s →
      authenticate store bootSecret (some ⟨true, some ⟨some keyId, sw, false⟩⟩)
          roles allowBootstrap =
        .failure ⟨401, "Authentication failed: Invalid JWT signature or malformed token"⟩) ∧
    ("Authentication failed: JWT expired" ≠
      "Authentication failed: Invalid JWT signature or malformed token") := by
  refine ⟨?_, ?_, by decide⟩
  · simp only [authenticate, authCore, if_true, if_neg hb, hL, hs, optStrFalsy, hs2,
      verifyTok, Bool.false_eq_true, if_false, Option.getD_some, if_pos rfl]
  · intro sw hsw
    simp only [authenticate, authCore, if_true, if_neg hb, hL, hs, optStrFalsy, hs2,
      Bool.false_eq_true, if_false]
    match sw with
    | none => rfl
    | some s2 =>
      have hne : ¬(s2 = s) := fun h => hsw (by rw [h])
      simp only [verifyTok, Option.getD_some, if_neg hne]

/-- C4 witness: a concrete inactive record with a matching secret. -/
theorem c4_verify_precedes_state_checks_witness :
    authenticate [("k1", { secret := some "sec", role := "reader", isActive := false })]
        "bs" (some ⟨true, some ⟨some "k1", some "sec", true⟩⟩) ["admin"] false =
      .failure ⟨401, "Authentication failed: JWT expired"⟩ ∧
    authenticate [("k1", { secret := some "sec", role := "reader", isActive := false })]
        "bs" (some ⟨true, some ⟨some "k1", some "wrong", false⟩⟩) ["admin"] false =
      .failure ⟨401, "Authentication failed: Invalid JWT signature or malformed token"⟩ :=
  have h := c4_verify_precedes_state_checks
    [("k1", { secret := some "sec", role := "reader", isActive := false })]
    "bs" ["admin"] false "k1" "sec" { secret := some "sec", role := "reader", isActive := false }
    (by decide) rfl rfl rfl rfl
  ⟨h.1, h.2.1 (some "wrong") (by decide)⟩

/-- C10: on the bootstrap path (allowBootstrap true, claimed keyId equal
to the bootstrap identifier), every verification failure — expired token,
invalid signature, or malformed token — collapses into the single 401
response "Authentication failed: Invalid bootstrap token", in both
authenticate variants (createKey.js lines 84-95 and 424-435). -/
theorem c10_bootstrap_failure_collapses (store : KeyStore) (bootSecret : String)
    (roles : List String) (t : Token)
    (hk : t.payloadKeyId = some BOOTSTRAP_KEY_ID)
    (hfail : verifyTok t bootSecret ≠ .ok) :
    authenticate store bootSecret (some ⟨true, some t⟩) roles true =
      .failure ⟨401, "Authentication failed: Invalid bootstrap token"⟩ ∧
    authenticateV2 store bootSecret (some ⟨true, some t⟩) roles true =
      .failure ⟨401, "Authentication failed: Invalid bootstrap token"⟩ := by
  have core : authCore store bootSecret (some t) roles true =
      .failure ⟨401, "Authentication failed: Invalid bootstrap token"⟩ := by
    simp only [authCore, hk, if_pos (And.intro rfl rfl)]
    match h : verifyTok t bootSecret with
    | .ok => exact absurd h hfail
    | .expired => rfl
    | .invalid => rfl
  exact ⟨by simp only [authenticate, if_true]; exact core,
         by simp only [authenticateV2]; exact core⟩

/-- C10 witness: an expired bootstrap token and a wrong-secret bootstrap
token both produce the single collapsed 401 response. -/
theorem c10_bootstrap_failure_collapses_witness :
    authenticate [] "bs" (some ⟨true, some ⟨some "nepemcert-bootstrap", some "bs", true⟩⟩)
        ["admin"] true =
      .failure ⟨401, "Authentication failed: Invalid bootstrap token"⟩ ∧
    authenticateV2 [] "bs" (some ⟨true, some ⟨some "nepemcert-bootstrap", none, false⟩⟩)
        ["admin"] true =
      .failure ⟨401, "Authentication failed: Invalid bootstrap token"⟩ :=
  ⟨(c10_bootstrap_failure_collapses [] "bs" ["admin"]
      ⟨some "nepemcert-bootstrap", some "bs", true⟩ rfl (by decide)).1,
   (c10_bootstrap_failure_collapses [] "bs" ["admin"]
      ⟨some "nepemcert-bootstrap", none, false⟩ rfl (by decide)).2⟩

/-- C5 counterexample: the second authenticate variant (createKey.js lines
402-411) checks only that the Authorization header is present, not that it
starts with the Bearer scheme.  A present wrong-scheme header (for example
"Basic abc": startsWith("Bearer ") is false and the second space-separated
chunk is not a parseable JWT) proceeds to token decoding and is answered
with 400 "Bad Request: JWT payload missing keyId" — not with the 401
required by the claim. -/
theorem c5_wrong_scheme_counterexample :
    authenticateV2 [] "bs" (some ⟨false, some ⟨none, none, false⟩⟩) ["admin"] true =
      .failure ⟨400, "Bad Request: JWT payload missing keyId"⟩ ∧
    authenticateV2 [] "bs" (some ⟨false, some ⟨none, none, false⟩⟩) ["admin"] true ≠
      .failure ⟨401, "Authentication required: Missing or invalid Authorization header"⟩ := by
  exact ⟨by decide, by decide⟩

/-- C5 amended: an absent Authorization header yields 401 with the message
"Authentication required: Missing or invalid Authorization header" in both
authenticate variants; a present header that does not start with the
Bearer scheme yields that same 401 in the first variant (createKey.js
lines 62-155), while the second variant (lines 402-494) performs no scheme
check and instead processes the second space-separated chunk of the header
as a token. -/
theorem c5_missing_header_401 (store : KeyStore) (bootSecret : String)
    (roles : List String) (allowBootstrap : Bool) :
    authenticate store bootSecret none roles allowBootstrap =
      .failure ⟨401, "Authentication required: Missing or invalid Authorization header"⟩ ∧
    authenticateV2 store bootSecret none roles allowBootstrap =
      .failure ⟨401, "Authentication required: Missing or invalid Authorization header"⟩ ∧
    (∀ h : AuthHeaderData, h.startsWithBearer = false →
      authenticate store bootSecret (some h) roles allowBootstrap =
        .failure ⟨401, "Authentication required: Missing or invalid Authorization header"⟩) := by
  refine ⟨rfl, rfl, ?_⟩
  intro h hscheme
  simp only [authenticate, hscheme, Bool.false_eq_true, if_false]

/-- C5 witness: the amended statement at a concrete wrong-scheme header. -/
theorem c5_missing_header_401_witness :
    authenticate [] "bs" none ["admin"] true =
      .failure ⟨401, "Authentication required: Missing or invalid Authorization header"⟩ ∧
    authenticate [] "bs" (some ⟨false, some ⟨none, none, false⟩⟩) ["admin"] true =
      .failure ⟨401, "Authentication required: Missing or invalid Authorization header"⟩ :=
  ⟨(c5_missing_header_401 [] "bs" ["admin"] true).1,
   (c5_missing_header_401 [] "bs" ["admin"] true).2.2 ⟨false, some ⟨none, none, false⟩⟩ rfl⟩

/-- C6: manageKey resolves the target identifier first by direct id
lookup; only when that misses does it query by description.  Zero matches
yield 404; several description matches yield 400 with the instruction to
use the explicit key id; a direct id hit resolves to that id regardless of
the description index. -/
theorem c6_target_resolution (store : KeyStore) (now httpMethod tid arole aid : String)
    (auth : Option AuthHeaderData) (body : Option UpdateBody)
    (h1 : tid ≠ "") (h2 : tid ≠ "manageKey")
    (hauth : manageAuth store auth ["admin"] = .success arole aid) :
    (storeLookup store tid = none → queryByDescription store tid = [] →
      manageKeyHandler store now httpMethod tid auth body =
        (⟨404, "Key not found. Please check the description or ID."⟩, [])) ∧
    (storeLookup store tid = none → 2 ≤ (queryByDescription store tid).length →
      manageKeyHandler store now httpMethod tid auth body =
        (⟨400, "Multiple keys found with this description. Please use the specific key ID."⟩, [])) ∧
    (∀ r : KeyRecord, storeLookup store tid = some r →
      resolveTarget store tid = .ok (tid, r)) := by
  have hcond : ¬(tid = "" ∨ tid = "manageKey") := by
    rintro (h | h)
    · exact h1 h
    · exact h2 h
  refine ⟨?_, ?_, ?_⟩
  · intro hn hq
    simp only [manageKeyHandler, if_neg hcond, hauth, resolveTarget, hn, hq]
  · intro hn hq
    rcases hq2 : queryByDescription store tid with _ | ⟨p, _ | ⟨p2, rest⟩⟩
    · rw [hq2] at hq; simp at hq
    · rw [hq2] at hq; simp at hq
    · simp only [manageKeyHandler, if_neg hcond, hauth, resolveTarget, hn, hq2]
  · intro r hr
    simp only [resolveTarget, hr]

/-- C6 witness: a store with one key, probed with an unknown identifier
(404), with an ambiguous description shared by two keys (400), and with a
direct id (resolution to that id). -/
theorem c6_target_resolution_witness :
    manageKeyHandler
        [("adm_1", { secret := some "sec", role := "admin", isActive := true })]
        "t1" "DELETE" "ghost" (some ⟨true, some ⟨some "adm_1", some "sec", false⟩⟩) none =
      (⟨404, "Key not found. Please check the description or ID."⟩, []) ∧
    manageKeyHandler
        [("adm_1", { secret := some "sec", role := "admin", isActive := true }),
         ("r1", { secret := some "s1", role := "reader", isActive := true,
                  description := some "dup" }),
         ("r2", { secret := some "s2", role := "reader", isActive := true,
                  description := some "dup" })]
        "t1" "DELETE" "dup" (some ⟨true, some ⟨some "adm_1", some "sec", false⟩⟩) none =
      (⟨400, "Multiple keys found with this description. Please use the specific key ID."⟩, []) ∧
    resolveTarget [("adm_1", { secret := some "sec", role := "admin", isActive := true })]
        "adm_1" =
      .ok ("adm_1", { secret := some "sec", role := "admin", isActive := true }) := by
  refine ⟨?_, ?_, ?_⟩
  · exact (c6_target_resolution
      [("adm_1", { secret := some "sec", role := "admin", isActive := true })]
      "t1" "DELETE" "ghost" "admin" "adm_1"
      (some ⟨true, some ⟨some "adm_1", some "sec", false⟩⟩) none
      (by decide) (by decide) (by decide)).1 rfl rfl
  · exact (c6_target_resolution
      [("adm_1", { secret := some "sec", role := "admin", isActive := true }),
       ("r1", { secret := some "s1", role := "reader", isActive := true,
                description := some "dup" }),
       ("r2", { secret := some "s2", role := "reader", isActive := true,
                description := some "dup" })]
      "t1" "DELETE" "dup" "admin" "adm_1"
      (some ⟨true, some ⟨some "adm_1", some "sec", false⟩⟩) none
      (by decide) (by decide) (by decide)).2.1 rfl (by decide)
  · exact (c6_target_resolution
      [("adm_1", { secret := some "sec", role := "admin", isActive := true })]
      "t1" "DELETE" "adm_1" "admin" "adm_1"
      (some ⟨true, some ⟨some "adm_1", some "sec", false⟩⟩) none
      (by decide) (by decide) (by decide)).2.2
      { secret := some "sec", role := "admin", isActive := true } rfl


/-- C2: when the target record's current role is admin and the target
identifier — whether the key's id or its unique description — resolves to
the acting key itself, a PUT patch that sets isActive = false or changes
role away from admin is rejected with 400 and performs no write,
regardless of which other valid fields appear in the patch; and a DELETE
of one's own admin key is always rejected with 400. -/
theorem c2_admin_self_lockout (store : KeyStore) (now tid arole aid : String)
    (auth : Option AuthHeaderData) (arec : KeyRecord) (u : UpdateBody)
    (body2 : Option UpdateBody)
    (hid1 : tid ≠ "") (hid2 : tid ≠ "manageKey")
    (hauth : manageAuth store auth ["admin"] = .success arole aid)
    (hres : resolveTarget store tid = .ok (aid, arec))
    (hadmin : arec.role = "admin")
    (hrole : ∀ r, u.role = some r → allowedRoles.contains r = true)
    (hdesc : ∀ d, u.description = some d → 3 ≤ (jsTrim d).length ∧
        (some (jsTrim d) = arec.description ∨ queryByDescription store (jsTrim d) = []))
    (htrig : u.isActive = some false ∨ (∃ r, u.role = some r ∧ r ≠ "admin")) :
    ((manageKeyHandler store now "PUT" tid auth (some u)).1.statusCode = 400 ∧
     ((manageKeyHandler store now "PUT" tid auth (some u)).1.message =
        "Cannot deactivate your own admin key" ∨
      (manageKeyHandler store now "PUT" tid auth (some u)).1.message =
        "Cannot change your own admin role") ∧
     (manageKeyHandler store now "PUT" tid auth (some u)).2 = []) ∧
    manageKeyHandler store now "DELETE" tid auth body2 =
      (⟨400, "Cannot deactivate your own admin key"⟩, []) := by
  have hcond : ¬(tid = "" ∨ tid = "manageKey") := by
    rintro (h | h)
    · exact hid1 h
    · exact hid2 h
  have hnonempty : ¬(u.role.isNone = true ∧ u.isActive.isNone = true ∧
      u.description.isNone = true) := by
    rintro ⟨hr, ha, _⟩
    rcases htrig with h | ⟨r, h, _⟩
    · rw [h] at ha; simp at ha
    · rw [h] at hr; simp at hr
  have htail : manageKeyPutTail now aid aid arec u =
      (⟨400, "Cannot deactivate your own admin key"⟩, []) ∨
      manageKeyPutTail now aid aid arec u =
      (⟨400, "Cannot change your own admin role"⟩, []) := by
    by_cases hfirst : u.isActive = some false
    · left
      simp [manageKeyPutTail, hnonempty, hfirst, hadmin]
    · right
      rcases htrig with h | ⟨r, hur, hrne⟩
      · exact absurd h hfirst
      · have hany : (u.role.any fun r => r != "admin") = true := by
          rw [hur]
          simp only [Option.any]
          exact bne_iff_ne.mpr hrne
        simp [manageKeyPutTail, hnonempty, hfirst, hany, hadmin, hur, hrne]
  have hput : manageKeyHandler store now "PUT" tid auth (some u) =
      manageKeyPutTail now aid aid arec u := by
    have hroleb : (u.role.any fun r => !(allowedRoles.contains r)) = false := by
      rcases hu : u.role with _ | r
      · rfl
      · simp only [Option.any, hrole r hu, Bool.not_true]
    simp only [manageKeyHandler, if_neg hcond, hauth, hres]
    simp only [manageKeyPut, hroleb, Bool.false_eq_true, if_false, reduceIte]
    rcases hud : u.description with _ | d
    · rfl
    · obtain ⟨hlen, hor⟩ := hdesc d hud
      have h3 : ¬((jsTrim d).length < 3) := by omega
      have h4 : ¬(some (jsTrim d) ≠ arec.description ∧
          (queryByDescription store (jsTrim d)).isEmpty = false) := by
        rcases hor with heq | hq
        · rintro ⟨hne, _⟩; exact hne heq
        · rintro ⟨_, hne⟩; rw [hq] at hne; simp at hne
      simp [h3, h4]
      intro h5 h6
      rcases hor with heq | hq
      · exact absurd heq h5
      · exact absurd hq h6
  constructor
  · rw [hput]
    rcases htail with h | h <;> rw [h]
    · exact ⟨rfl, Or.inl rfl, rfl⟩
    · exact ⟨rfl, Or.inr rfl, rfl⟩
  · simp only [manageKeyHandler, if_neg hcond, hauth, hres]
    simp [hadmin]

/-- Concrete admin record used by the manageKey witnesses. -/
def wAdminRec : KeyRecord :=
  { secret := some "sec", role := "admin", isActive := true, description := some "Root" }

/-- Concrete one-admin store used by the manageKey witnesses. -/
def wStore : KeyStore := [("adm_1", wAdminRec)]

/-- Concrete valid admin bearer header used by the manageKey witnesses. -/
def wAuth : Option AuthHeaderData := some ⟨true, some ⟨some "adm_1", some "sec", false⟩⟩

/-- C2 witness: the admin key addresses itself by its unique description
"Root" (not by id), patching a role change plus a fresh valid description,
and deleting itself; both are rejected with 400 and no write. -/
theorem c2_admin_self_lockout_witness :
    ((manageKeyHandler wStore "t1" "PUT" "Root" wAuth
        (some ⟨some "issuer", none, some "Fresh descr"⟩)).1.statusCode = 400 ∧
     (manageKeyHandler wStore "t1" "PUT" "Root" wAuth
        (some ⟨some "issuer", none, some "Fresh descr"⟩)).2 = []) ∧
    manageKeyHandler wStore "t1" "DELETE" "Root" wAuth none =
      (⟨400, "Cannot deactivate your own admin key"⟩, []) := by
  have h := c2_admin_self_lockout wStore "t1" "Root" "admin" "adm_1" wAuth wAdminRec
    ⟨some "issuer", none, some "Fresh descr"⟩ none
    (by decide) (by decide) (by decide) rfl rfl
    (by intro r hr; cases hr; decide)
    (by intro d hd; cases hd; exact ⟨by decide, Or.inr (by decide)⟩)
    (Or.inr ⟨"issuer", rfl, by decide⟩)
  exact ⟨⟨h.1.1, h.1.2.2⟩, h.2⟩

/-- Erase the deactivation audit stamps of a record, for comparing key
states modulo the deactivatedAt/deactivatedBy fields. -/
def stripDeactAudit (r : KeyRecord) : KeyRecord :=
  { r with deactivatedAt := none, deactivatedBy := none }

/-- C9: DELETE is idempotent on the key state.  For a target identifier
that resolves — by direct id or by unique description — to a key that is
not the acting admin's own admin key, the DELETE succeeds with 200 and
writes the record with isActive = false even when the target is already
inactive; running DELETE again over the deactivated record (through
either resolution route) succeeds again and writes a record that differs
from the first write only in the restamped deactivatedAt/deactivatedBy
audit fields. -/
theorem c9_delete_idempotent (store store2 : KeyStore)
    (now now2 tid tid2 tkid arole arole2 aid : String)
    (auth auth2 : Option AuthHeaderData) (body body2 : Option UpdateBody)
    (rec0 : KeyRecord)
    (hid1 : tid ≠ "") (hid2 : tid ≠ "manageKey")
    (hid3 : tid2 ≠ "") (hid4 : tid2 ≠ "manageKey")
    (hauth : manageAuth store auth ["admin"] = .success arole aid)
    (hauth2 : manageAuth store2 auth2 ["admin"] = .success arole2 aid)
    (hres : resolveTarget store tid = .ok (tkid, rec0))
    (hres2 : resolveTarget store2 tid2 = .ok (tkid,
      { rec0 with isActive := false, deactivatedAt := some now, deactivatedBy := some aid }))
    (hself : ¬(rec0.role = "admin" ∧ aid = tkid)) :
    manageKeyHandler store now "DELETE" tid auth body =
      (⟨200, "Key deactivated successfully"⟩,
       [(tkid, { rec0 with
                 isActive := false,
                 deactivatedAt := some now, deactivatedBy := some aid })]) ∧
    manageKeyHandler store2 now2 "DELETE" tid2 auth2 body2 =
      (⟨200, "Key deactivated successfully"⟩,
       [(tkid, { rec0 with
                 isActive := false,
                 deactivatedAt := some now2, deactivatedBy := some aid })]) ∧
    ({ rec0 with
       isActive := false,
       deactivatedAt := some now, deactivatedBy := some aid } : KeyRecord).isActive = false ∧
    stripDeactAudit { rec0 with
        isActive := false,
        deactivatedAt := some now2, deactivatedBy := some aid } =
      stripDeactAudit { rec0 with
        isActive := false,
        deactivatedAt := some now, deactivatedBy := some aid } := by
  have hcond : ¬(tid = "" ∨ tid = "manageKey") := by
    rintro (h | h)
    · exact hid1 h
    · exact hid2 h
  have hcond2 : ¬(tid2 = "" ∨ tid2 = "manageKey") := by
    rintro (h | h)
    · exact hid3 h
    · exact hid4 h
  refine ⟨?_, ?_, rfl, rfl⟩
  · simp only [manageKeyHandler, if_neg hcond, hauth, hres]
    simp [hself]
  · simp only [manageKeyHandler, if_neg hcond2, hauth2, hres2]
    simp [hself]

/-- Concrete already-inactive reader record used by the C9 witness. -/
def wTargetRec : KeyRecord :=
  { secret := some "s2", role := "reader", isActive := false, description := some "Terminal" }

/-- C9 witness: deleting an already-inactive reader key twice, first
addressed by its unique description "Terminal", then by its id "rd_1";
both calls return 200 and the two written records agree once the
deactivation audit stamps are erased. -/
theorem c9_delete_idempotent_witness :
    manageKeyHandler [("adm_1", wAdminRec), ("rd_1", wTargetRec)] "t1" "DELETE" "Terminal"
        wAuth none =
      (⟨200, "Key deactivated successfully"⟩,
       [("rd_1", { wTargetRec with
                   isActive := false,
                   deactivatedAt := some "t1", deactivatedBy := some "adm_1" })]) ∧
    manageKeyHandler
        [("adm_1", wAdminRec),
         ("rd_1", { wTargetRec with
                    isActive := false,
                    deactivatedAt := some "t1", deactivatedBy := some "adm_1" })]
        "t2" "DELETE" "rd_1" wAuth none =
      (⟨200, "Key deactivated successfully"⟩,
       [("rd_1", { wTargetRec with
                   isActive := false,
                   deactivatedAt := some "t2", deactivatedBy := some "adm_1" })]) ∧
    stripDeactAudit { wTargetRec with
        isActive := false,
        deactivatedAt := some "t2", deactivatedBy := some "adm_1" } =
      stripDeactAudit { wTargetRec with
        isActive := false,
        deactivatedAt := some "t1", deactivatedBy := some "adm_1" } := by
  have h := c9_delete_idempotent
    [("adm_1", wAdminRec), ("rd_1", wTargetRec)]
    [("adm_1", wAdminRec),
     ("rd_1", { wTargetRec with
                isActive := false,
                deactivatedAt := some "t1", deactivatedBy := some "adm_1" })]
    "t1" "t2" "Terminal" "rd_1" "rd_1" "admin" "admin" "adm_1" wAuth wAuth none none
    wTargetRec
    (by decide) (by decide) (by decide) (by decide) (by decide) (by decide)
    rfl rfl (by decide)
  exact ⟨h.1, h.2.1, h.2.2.2⟩

/-- C8: a createKey request whose supplied description trims to fewer than
3 characters is answered with 400 and performs no store write — the
description validation (createKey.js lines 231-237) runs before the
creation block (lines 283-306), so the write list is empty on every such
request. -/
theorem c8_short_description_no_write (store : KeyStore)
    (bootSecret genSecret docId now : String) (auth : Option AuthHeaderData)
    (b : CreateBody) (d : String)
    (hd : b.description = some d)
    (hshort : (jsTrim d).length < 3) :
    (createKeyV1Post store bootSecret genSecret docId now auth (some b)).1.statusCode = 400 ∧
    (createKeyV1Post store bootSecret genSecret docId now auth (some b)).2 = [] := by
  simp only [createKeyV1Post, hd, Option.getD_some]
  split_ifs <;> exact ⟨rfl, rfl⟩

/-- C8 witness: a two-character description is rejected with 400 and the
write list is empty. -/
theorem c8_short_description_no_write_witness :
    (createKeyV1Post [] "bs" "gsec" "doc0" "t0" wAuth
        (some ⟨some "reader", some true, some "ab", none⟩)).1.statusCode = 400 ∧
    (createKeyV1Post [] "bs" "gsec" "doc0" "t0" wAuth
        (some ⟨some "reader", some true, some "ab", none⟩)).2 = [] :=
  c8_short_description_no_write [] "bs" "gsec" "doc0" "t0" wAuth
    ⟨some "reader", some true, some "ab", none⟩ "ab" rfl (by decide)
